import Mathlib

/-!
Verification of the mawt fadecandy bridge (`fadecandy.go`, package `mawt`)
against its natural-language specification.

The Go source is shallowly embedded below.  Machine integers are modelled as
`Nat` with explicit `% 2^8` / `% 2^16` at the points where the Go code casts
(`uint8(...)`, `uint16(...)`).  Channels, timers and goroutine scheduling are
modelled as explicit event lists / environment parameters; fallible calls
return `Option` / `Except`.
-/

namespace Mawt

/-- Go `uint8(n)` cast: truncation modulo 2^8. -/
def uint8 (n : Nat) : Nat := n % 256

/-- Go `uint16(n)` cast: truncation modulo 2^16. -/
def uint16 (n : Nat) : Nat := n % 65536

/-- Modelled from the spec: an element of a ChannelBuffer — "a per-output-channel
ordered sequence of color values (four components: red, green, blue, alpha)".
`devices.GetStrandData` (repository code not under `src/`) yields these; the
components are stored as bytes, following Go's `color.RGBA` convention. -/
structure RGBA where
  r : Nat
  g : Nat
  b : Nat
  a : Nat
deriving Repr, DecidableEq

/-- Go's `color.Color.RGBA()` accessor as implemented by `color.RGBA`: each
stored byte `c` is scaled to the 16-bit range as `c | c<<8`, i.e. `c * 0x101`.
The Go source calls this at line 197 (`r, g, b, a := rgba.RGBA()`). -/
def RGBA.rgba (c : RGBA) : Nat × Nat × Nat × Nat :=
  (uint8 c.r * 257, uint8 c.g * 257, uint8 c.b * 257, uint8 c.a * 257)

/-- The `opc.Message` type (external `kellydunn/go-opc` library, modelled at its
interface per the spec's wire-protocol section): a channel byte, a 16-bit
length field, and the pixel data as a flat sequence of 3-byte triples. -/
structure OpcMessage where
  channel : Nat
  lengthField : Nat
  pixels : List (Nat × Nat × Nat)
deriving Repr, DecidableEq

/-- Constructor `opc.NewMessage(channel)`: fresh message for the given channel. -/
def NewMessage (channel : Nat) : OpcMessage :=
  { channel := uint8 channel, lengthField := 0, pixels := [] }

/-- Method `m.SetLength(v)` with `v : uint16`. -/
def OpcMessage.setLength (m : OpcMessage) (v : Nat) : OpcMessage :=
  { m with lengthField := uint16 v }

/-- Method `m.SetPixelColor(i, uint8(r), uint8(g), uint8(b))` for the next sequential
index `i`: appends one 3-byte triple. -/
def OpcMessage.setPixel (m : OpcMessage) (r g b : Nat) : OpcMessage :=
  { m with pixels := m.pixels ++ [(uint8 r, uint8 g, uint8 b)] }

/-- The per-element pixel computation of `RunLoop` (lines 196-204):
`r, g, b, a := rgba.RGBA(); if a == 0 { r, g, b = 0, 0, 0 };
SetPixelColor(i, uint8(r), uint8(g), uint8(b))`. -/
def strandPixel (c : RGBA) : Nat × Nat × Nat :=
  let q := c.rgba
  if q.2.2.2 = 0 then (uint8 0, uint8 0, uint8 0)
  else (uint8 q.1, uint8 q.2.1, uint8 q.2.2.1)

/-- One fold step of the pixel loop at lines 196-205 of `RunLoop`. -/
def strandPixelStep (m : OpcMessage) (c : RGBA) : OpcMessage :=
  let q := c.rgba
  let r := if q.2.2.2 = 0 then 0 else q.1
  let g := if q.2.2.2 = 0 then 0 else q.2.1
  let b := if q.2.2.2 = 0 then 0 else q.2.2.1
  m.setPixel r g b

/-- Message building in `RunLoop`, lines 194-205: `m := opc.NewMessage(0);
m.SetLength(uint16(len(strandData) * 3)); for i, rgba := range strandData {...}`. -/
def buildStrandMessage (strandData : List RGBA) : OpcMessage :=
  strandData.foldl strandPixelStep
    ((NewMessage 0).setLength (strandData.length * 3))

theorem strandPixelStep_eq (m : OpcMessage) (c : RGBA) :
    strandPixelStep m c =
      { m with pixels := m.pixels ++ [strandPixel c] } := by
  unfold strandPixelStep strandPixel OpcMessage.setPixel
  by_cases h : c.rgba.2.2.2 = 0 <;> simp [h]

theorem foldl_strandPixelStep_pixels (d : List RGBA) (m : OpcMessage) :
    (d.foldl strandPixelStep m).pixels = m.pixels ++ d.map strandPixel := by
  induction d generalizing m with
  | nil => simp
  | cons c rest ih => simp [List.foldl_cons, strandPixelStep_eq, ih]

theorem foldl_strandPixelStep_channel (d : List RGBA) (m : OpcMessage) :
    (d.foldl strandPixelStep m).channel = m.channel := by
  induction d generalizing m with
  | nil => rfl
  | cons c rest ih => simp [List.foldl_cons, strandPixelStep_eq, ih]

theorem foldl_strandPixelStep_lengthField (d : List RGBA) (m : OpcMessage) :
    (d.foldl strandPixelStep m).lengthField = m.lengthField := by
  induction d generalizing m with
  | nil => rfl
  | cons c rest ih => simp [List.foldl_cons, strandPixelStep_eq, ih]

theorem buildStrandMessage_pixels (d : List RGBA) :
    (buildStrandMessage d).pixels = d.map strandPixel := by
  unfold buildStrandMessage
  rw [foldl_strandPixelStep_pixels]
  rfl

/-- C1: When building a DeviceMessage in FrameStreamer's streaming step, for
every element of the strand's pixel buffer: if the element's alpha component is
zero, the (r,g,b) triple written into the message is (0,0,0) regardless of the
element's color values; otherwise the red, green and blue byte values of the
element are written through unchanged. -/
theorem C1_alpha_zero_forces_black :
    (∀ (d : List RGBA) (i : Nat),
        (buildStrandMessage d).pixels.get? i = (d.get? i).map strandPixel)
    ∧ (∀ c : RGBA, c.a = 0 → strandPixel c = (0, 0, 0))
    ∧ (∀ c : RGBA, c.r < 256 → c.g < 256 → c.b < 256 → c.a < 256 → c.a ≠ 0 →
        strandPixel c = (c.r, c.g, c.b)) := by
  refine ⟨?_, ?_, ?_⟩
  · intro d i
    rw [buildStrandMessage_pixels, List.get?_map]
  · intro c hc
    simp [strandPixel, RGBA.rgba, uint8, hc]
  · intro c hr hg hb ha hne
    have ha2 : c.a % 256 = c.a := Nat.mod_eq_of_lt ha
    have h : c.a % 256 * 257 ≠ 0 := by
      rw [ha2]; exact Nat.mul_ne_zero hne (by norm_num)
    have e : ∀ x : Nat, x < 256 → x % 256 * 257 % 256 = x := by
      intro x hx
      rw [Nat.mod_eq_of_lt hx]
      have hx2 : x * 257 = x + x * 256 := by ring
      rw [hx2, Nat.add_mul_mod_self_right, Nat.mod_eq_of_lt hx]
    simp only [strandPixel, RGBA.rgba, uint8, if_neg h]
    rw [e c.r hr, e c.g hg, e c.b hb]

/-- Witness for C1 at the spec's own example: input (255,10,200,0) yields
(0,0,0); input (255,10,200,1) passes through unchanged. -/
theorem C1_alpha_zero_forces_black_witness :
    strandPixel ⟨255, 10, 200, 0⟩ = (0, 0, 0)
    ∧ strandPixel ⟨255, 10, 200, 1⟩ = (255, 10, 200) := by
  refine ⟨C1_alpha_zero_forces_black.2.1 ⟨255, 10, 200, 0⟩ rfl, ?_⟩
  exact C1_alpha_zero_forces_black.2.2 ⟨255, 10, 200, 1⟩ (by decide) (by decide)
    (by decide) (by decide) (by decide)

/-! DeviceConnection: `FadeCandy.Send` (lines 128-141) and the one-time
connect of `run` (lines 73-88). -/

/-- An `errors.Error` from `karlmutch/errors`: a message plus the keys attached
with `.With(key, value)` (the values themselves — stack traces, URLs — are
opaque here; only which context keys are present matters to the claims). -/
structure GoError where
  text : String
  keys : List String
deriving Repr, DecidableEq

/-- Constructor `errors.New(text)`. -/
def errNew (text : String) : GoError := { text := text, keys := [] }

/-- Method `err.With(key, value)`: records the context key. -/
def GoError.withKey (e : GoError) (k : String) : GoError :=
  { e with keys := e.keys ++ [k] }

/-- The `FadeCandy` struct: `oc *opc.Client`, `none` when no connection was
established (the client is opaque, only its presence matters). -/
structure FadeCandy where
  oc : Option Unit
deriving Repr, DecidableEq

/-- Method `FadeCandy.Send` (lines 128-141).  `transport` models `fc.oc.Send(m)`:
`some eGo` is an underlying transport failure with Go error text `eGo`,
`none` is success. -/
def FadeCandy.Send (fc : FadeCandy) (m : Option OpcMessage)
    (transport : OpcMessage → Option String) : Option GoError :=
  match fc.oc with
  | none => some ((errNew ("fadecandy server not online")).withKey ("stack"))
  | some _ =>
    match m with
    | none => some ((errNew ("invalid message")).withKey ("stack"))
    | some msg =>
      match transport msg with
      | some eGo => some ((errNew eGo).withKey ("stack"))
      | none => none

/-- The one-time connection attempt of `run` (lines 73-88): `fc.oc =
opc.NewClient(); if errGo := fc.oc.Connect("tcp", server); errGo != nil
{ fc.oc = nil; err := errors.Wrap(errGo).With("url", server).With("stack", ...) }`.
Returns the resulting `FadeCandy` and the reported startup error, if any. -/
def connectOnce (connectOk : Bool) : FadeCandy × Option GoError :=
  if connectOk then ({ oc := some () }, none)
  else ({ oc := none },
        some (((errNew ("connect failed")).withKey ("url")).withKey ("stack")))

/-- An empty (but non-null) OPC message: `opc.NewMessage(0)` with no pixel
data set. -/
def emptyMsg : OpcMessage := NewMessage 0

/-- C5 counterexample: the claim as stated is false on the code at concrete
inputs.  (1) An empty non-null message is not rejected with "invalid message":
with a connection present and a succeeding transport, `Send` of the empty
message returns no error at all.  (2) The "not connected" error carries only
the call-site ("stack") context and not the endpoint address ("url"), so
returned errors do not all carry the endpoint address. -/
theorem C5_counterexample :
    (FadeCandy.Send { oc := some () } (some emptyMsg) (fun _ => none) = none)
    ∧ (FadeCandy.Send { oc := none } (some emptyMsg) (fun _ => none) =
        some { text := "fadecandy server not online", keys := ["stack"] })
    ∧ ("url" ∉ ["stack"]) := by
  refine ⟨rfl, rfl, ?_⟩
  simp

/-- C5 amended: `Send` returns a "not connected" error whenever no connection
is held (after the one-time startup connect failed, every send fails fast this
way, independently of the message and of the transport — no internal retry);
it returns an "invalid message" error for a null message (an empty non-null
message is not validated and goes to the transport); it returns a wrapped
transport error when the underlying send fails, and no error on success.
Every returned error carries the originating call site ("stack") context; the
endpoint address ("url") is attached only by the caller at the
connection-establishment report, not by `Send` itself.  No error is silently
dropped: every failure path returns a non-nil error. -/
theorem C5_send_error_contract :
    ((connectOnce false).1.oc = none)
    ∧ (∀ e, (connectOnce false).2 = some e →
        "url" ∈ e.keys ∧ "stack" ∈ e.keys)
    ∧ (∀ (m : Option OpcMessage) (tr : OpcMessage → Option String),
        FadeCandy.Send { oc := none } m tr =
          some ((errNew ("fadecandy server not online")).withKey ("stack")))
    ∧ (∀ (u : Unit) (tr : OpcMessage → Option String),
        FadeCandy.Send { oc := some u } none tr =
          some ((errNew ("invalid message")).withKey ("stack")))
    ∧ (∀ (u : Unit) (msg : OpcMessage) (tr : OpcMessage → Option String)
        (eGo : String), tr msg = some eGo →
        FadeCandy.Send { oc := some u } (some msg) tr =
          some ((errNew eGo).withKey ("stack")))
    ∧ (∀ (u : Unit) (msg : OpcMessage) (tr : OpcMessage → Option String),
        tr msg = none →
        FadeCandy.Send { oc := some u } (some msg) tr = none)
    ∧ (∀ e, (FadeCandy.Send { oc := none } none (fun _ => none) = some e →
        "stack" ∈ e.keys)) := by
  refine ⟨rfl, ?_, ?_, ?_, ?_, ?_, ?_⟩
  · intro e he
    simp [connectOnce, errNew, GoError.withKey] at he
    subst he
    simp
  · intro m tr; rfl
  · intro u tr; rfl
  · intro u msg tr eGo h
    simp [FadeCandy.Send, h]
  · intro u msg tr h
    simp [FadeCandy.Send, h]
  · intro e he
    simp [FadeCandy.Send, errNew, GoError.withKey] at he
    subst he
    simp

/-- Witness for C5's amended theorem at concrete inputs: a failed transport
send yields the wrapped error, and a not-connected send fails fast. -/
theorem C5_send_error_contract_witness :
    FadeCandy.Send { oc := some () } (some emptyMsg) (fun _ => some ("broken")) =
      some ((errNew ("broken")).withKey ("stack"))
    ∧ FadeCandy.Send { oc := none } (some emptyMsg) (fun _ => some ("broken")) =
        some ((errNew ("fadecandy server not online")).withKey ("stack")) :=
  ⟨C5_send_error_contract.2.2.2.2.1 () emptyMsg (fun _ => some ("broken")) "broken" rfl,
   C5_send_error_contract.2.2.1 (some emptyMsg) (fun _ => some ("broken"))⟩

/-! FrameStreamer: the streaming body of `RunLoop` (lines 157-220). -/

/-- Line 157: `refresh := time.Duration(30 * time.Millisecond)` — the nominal
fast inter-send interval, in milliseconds. -/
def fastRefreshMillis : Nat := 30

/-- Line 210: `refresh = time.Duration(5 * time.Second)` — the slow interval
adopted after a send failure, in milliseconds. -/
def slowRefreshMillis : Nat := 5000

/-- Modelled from the spec: the environment of one streaming sweep — the device
topology and per-strand pixel buffers come from `GetStrands` and
`devices.GetStrandData`, repository code not under `src/`, specified as
"physicalTopology() -> mapping device -> (strand -> elementCount)" and
"channelData(channelId) -> ChannelBuffer".  `transport k` gives the outcome of
the k-th `fc.oc.Send` call, absorbing the device's behaviour. -/
structure StreamEnv where
  fc : FadeCandy
  transport : Nat → OpcMessage → Option String
  getStrands : Except String (List (Nat × List Nat))
  getStrandData : Nat → Nat → Except String (List RGBA)

/-- The state threaded through the streaming loop: the current pacing interval
(`refresh`), how many `Send` calls have happened, every `Send` attempt as
(device, strand index, message), and the errors handed to `sendErr`. -/
structure TickState where
  refresh : Nat
  sendCount : Nat
  sent : List (Nat × Nat × OpcMessage)
  reported : List GoError
deriving Repr, DecidableEq

/-- Initial state of `RunLoop`'s streaming loop (line 157). -/
def initialTickState : TickState :=
  { refresh := fastRefreshMillis, sendCount := 0, sent := [], reported := [] }

/-- The per-strand body of `RunLoop` (lines 179-215): skip zero-length strands;
fetch the strand data, reporting a failure and continuing; otherwise build the
message, send it, and set `refresh` to the slow value on failure or to the
nominal value on success. -/
def processStrand (env : StreamEnv) (device strandIdx strandLen : Nat)
    (s : TickState) : TickState :=
  if strandLen = 0 then s
  else
    match env.getStrandData device strandIdx with
    | .error eGo =>
      { s with reported := s.reported ++ [(errNew eGo).withKey ("stack")] }
    | .ok strandData =>
      let m := buildStrandMessage strandData
      match env.fc.Send (some m) (env.transport s.sendCount) with
      | some _ =>
        { s with refresh := slowRefreshMillis,
                 sendCount := s.sendCount + 1,
                 sent := s.sent ++ [(device, strandIdx, m)] }
      | none =>
        { s with refresh := fastRefreshMillis,
                 sendCount := s.sendCount + 1,
                 sent := s.sent ++ [(device, strandIdx, m)] }

/-- The per-device loop (lines 177-179): `for strand, strandLen := range
strands` — the strand index is the position in the strand-length list. -/
def processDevice (env : StreamEnv) (device : Nat) (strands : List Nat)
    (s : TickState) : TickState :=
  (strands.enum).foldl
    (fun s p => processStrand env device p.1 p.2 s) s

/-- One streaming tick of `RunLoop` (lines 160-216): `GetStrands`, reporting a
failure and skipping the sweep; otherwise sweep every device and strand. -/
def runTick (env : StreamEnv) (s : TickState) : TickState :=
  match env.getStrands with
  | .error eGo =>
    { s with reported := s.reported ++ [(errNew eGo).withKey ("stack")] }
  | .ok deviceStrands =>
    deviceStrands.foldl (fun s p => processDevice env p.1 p.2 s) s

/-- Runs `n` iterations of `RunLoop`'s streaming loop (lines 158-220).  Each
iteration first waits `s.refresh` milliseconds (`case <-time.After(refresh)`,
line 160) — the interval in force is read fresh at the start of the iteration
— then runs the tick body.  Returns the list of waited intervals and the final
state. -/
def runTicks (env : StreamEnv) : Nat → TickState → List Nat × TickState
  | 0, s => ([], s)
  | n + 1, s =>
    let wait := s.refresh
    let rest := runTicks env n (runTick env s)
    (wait :: rest.1, rest.2)

/-- The C2 scenario: one device with one strand of one element; the transport
fails the first 3 sends and succeeds thereafter. -/
def pacingScenarioEnv : StreamEnv :=
  { fc := { oc := some () }
    transport := fun k _ => if k < 3 then some ("send failed") else none
    getStrands := .ok [(0, [1])]
    getStrandData := fun _ _ => .ok [⟨10, 20, 30, 255⟩] }

/-- C2: FrameStreamer's inter-send interval starts at the nominal 30 ms, is
set to 5 s immediately after any send failure and back to 30 ms immediately
after any successful send, and each loop iteration reads the interval in force
fresh at its start.  In the scenario where the connection fails the first 3
sends and succeeds thereafter, the successive iterations wait
30 ms, 5 s, 5 s, 5 s, 30 ms, ... and the interval right after each of the 3
failures is 5 s while right after the first success it is 30 ms. -/
theorem C2_pacing_adapts_and_recovers :
    (initialTickState.refresh = fastRefreshMillis ∧ fastRefreshMillis = 30
      ∧ slowRefreshMillis = 5000)
    ∧ (∀ (env : StreamEnv) (d i len : Nat) (s : TickState)
        (data : List RGBA) (e : GoError), len ≠ 0 →
        env.getStrandData d i = .ok data →
        env.fc.Send (some (buildStrandMessage data)) (env.transport s.sendCount)
          = some e →
        (processStrand env d i len s).refresh = slowRefreshMillis)
    ∧ (∀ (env : StreamEnv) (d i len : Nat) (s : TickState)
        (data : List RGBA), len ≠ 0 →
        env.getStrandData d i = .ok data →
        env.fc.Send (some (buildStrandMessage data)) (env.transport s.sendCount)
          = none →
        (processStrand env d i len s).refresh = fastRefreshMillis)
    ∧ (∀ (env : StreamEnv) (n : Nat) (s : TickState),
        runTicks env (n + 1) s =
          (s.refresh :: (runTicks env n (runTick env s)).1,
           (runTicks env n (runTick env s)).2))
    ∧ ((runTicks pacingScenarioEnv 6 initialTickState).1 =
        [30, 5000, 5000, 5000, 30, 30]) := by
  refine ⟨⟨rfl, rfl, rfl⟩, ?_, ?_, ?_, ?_⟩
  · intro env d i len s data e hlen hdata hsend
    simp [processStrand, hlen, hdata, hsend]
  · intro env d i len s data hlen hdata hsend
    simp [processStrand, hlen, hdata, hsend]
  · intro env n s; rfl
  · decide

/-- Witness for C2 at a concrete input: in the scenario environment the very
first send fails, so the interval right after it is the slow 5000 ms; the
fourth send succeeds, restoring 30 ms. -/
theorem C2_pacing_adapts_and_recovers_witness :
    (processStrand pacingScenarioEnv 0 0 1 initialTickState).refresh = 5000 :=
  C2_pacing_adapts_and_recovers.2.1 pacingScenarioEnv 0 0 1 initialTickState
    [⟨10, 20, 30, 255⟩] ((errNew ("send failed")).withKey ("stack"))
    (by decide) rfl rfl

/-- A sweep environment with one device carrying two strands of one element
each, used to inspect the channel identifier of the built messages. -/
def twoStrandEnv : StreamEnv :=
  { fc := { oc := some () }
    transport := fun _ _ => none
    getStrands := .ok [(0, [1, 1])]
    getStrandData := fun _ _ => .ok [⟨1, 2, 3, 255⟩] }

/-- C6 counterexample: the claim that every DeviceMessage carries its strand's
channel/strand address as its channel identifier is false on the code — `m :=
opc.NewMessage(0)` (line 194) hardcodes channel 0.  Concretely, sweeping one
device with two strands sends a message for strand index 0 and one for strand
index 1, and both carry channel identifier 0; in particular the message sent
for strand 1 does not carry 1 (nor the 1-based strand number 2). -/
theorem C6_counterexample :
    ((runTick twoStrandEnv initialTickState).sent.map
      (fun p => (p.1, p.2.1, p.2.2.channel)) = [(0, 0, 0), (0, 1, 0)])
    ∧ ¬ (∀ p ∈ (runTick twoStrandEnv initialTickState).sent,
          p.2.2.channel = p.2.1) := by
  exact ⟨by decide, by decide⟩

/-- C6 amended: every DeviceMessage built for a strand of `n` addressable
elements carries channel identifier 0 (the OPC broadcast channel — the
strand's own address is not used), a 16-bit length field equal to `3 * n`
taken modulo 2^16, and exactly one 3-byte (R,G,B) triple per element in
element order; strands of zero length produce no message at all and leave the
streaming state untouched. -/
theorem C6_message_format :
    (∀ d : List RGBA, (buildStrandMessage d).channel = 0)
    ∧ (∀ d : List RGBA,
        (buildStrandMessage d).lengthField = (3 * d.length) % 65536)
    ∧ (∀ d : List RGBA, (buildStrandMessage d).pixels = d.map strandPixel)
    ∧ (∀ d : List RGBA, (buildStrandMessage d).pixels.length = d.length)
    ∧ (∀ (env : StreamEnv) (device strandIdx : Nat) (s : TickState),
        processStrand env device strandIdx 0 s = s) := by
  refine ⟨?_, ?_, buildStrandMessage_pixels, ?_, ?_⟩
  · intro d
    unfold buildStrandMessage
    rw [foldl_strandPixelStep_channel]
    rfl
  · intro d
    unfold buildStrandMessage
    rw [foldl_strandPixelStep_lengthField]
    simp [OpcMessage.setLength, NewMessage, uint16, Nat.mul_comm]
  · intro d
    rw [buildStrandMessage_pixels, List.length_map]
  · intro env device strandIdx s
    simp [processStrand]

/-! StatusCache: the subscriber goroutine of `StartFadeCandy`
(lines 43-60). -/

/-- Modelled from the spec: the externally-defined status object ("an
immutable-by-convention deep copy of the externally-supplied status object");
its concrete Go definition is repository code not under `src/`, so it is an
abstract value here. -/
structure Status where
  val : Nat
deriving Repr, DecidableEq

/-- Method `Status.DeepCopy`: yields an equal, independently-owned value; on
immutable values this is the identity. -/
def Status.DeepCopy (s : Status) : Status := s

/-- A `PortalMsg` as consumed at lines 47-55: its `Home` origin flag and its
status payload. -/
structure PortalMsg where
  Home : Bool
  status : Status
deriving Repr, DecidableEq

/-- One wake-up of the subscriber goroutine's `select` (lines 46-58): either a
message is received from `statusC` (possibly `nil`), or `quitC` fires. -/
inductive SubEvent where
  | recv : Option PortalMsg → SubEvent
  | quit : SubEvent
deriving Repr, DecidableEq

/-- Loop control after one subscriber step: keep looping or return. -/
inductive LoopCtl where
  | cont
  | exit
deriving Repr, DecidableEq

/-- The body of the subscriber loop (lines 46-58): a `nil` message is skipped
(`if nil == msg { continue }`, lines 48-50) before any field of the message is
touched; a message with `Home` set replaces the cached snapshot with a deep
copy of its status (lines 51-55); any other message leaves the cache
unchanged; `quitC` exits the loop. -/
def subscriberReact (held : Option Status) (ev : SubEvent) :
    Option Status × LoopCtl :=
  match ev with
  | .quit => (held, .exit)
  | .recv none => (held, .cont)
  | .recv (some msg) =>
    (if msg.Home then some msg.status.DeepCopy else held, .cont)

/-- The subscriber loop run over a list of wake-up events, stopping at the
first `quit`. -/
def subscriberRun (held : Option Status) : List SubEvent → Option Status
  | [] => held
  | ev :: rest =>
    match subscriberReact held ev with
    | (h, .exit) => h
    | (h, .cont) => subscriberRun h rest

theorem subscriberRun_append_nonhome (held : Option Status)
    (evs : List SubEvent) (m : PortalMsg) (hm : m.Home = false) :
    subscriberRun held (evs ++ [.recv (some m)]) = subscriberRun held evs := by
  induction evs generalizing held with
  | nil => simp [subscriberRun, subscriberReact, hm]
  | cons ev rest ih =>
    cases ev with
    | quit => simp [subscriberRun, subscriberReact]
    | recv om =>
      cases om with
      | none => simpa [subscriberRun, subscriberReact] using ih held
      | some msg =>
        by_cases hh : msg.Home <;>
          simp [subscriberRun, subscriberReact, hh, ih]

/-- C4: a status message whose primary/home flag is unset never alters the
StatusCache's held snapshot — one such step is the identity on the cache, a
trace ending in such a message yields the same cache as the trace without it,
and in particular a non-home message arriving right after a valid primary
update leaves the primary's snapshot in place; only home-flagged messages
replace the snapshot. -/
theorem C4_origin_filtering :
    (∀ (held : Option Status) (m : PortalMsg), m.Home = false →
        subscriberReact held (.recv (some m)) = (held, .cont))
    ∧ (∀ (held : Option Status) (evs : List SubEvent) (m : PortalMsg),
        m.Home = false →
        subscriberRun held (evs ++ [.recv (some m)]) = subscriberRun held evs)
    ∧ (∀ (held : Option Status) (prim m : PortalMsg),
        prim.Home = true → m.Home = false →
        subscriberRun held [.recv (some prim), .recv (some m)] =
          some prim.status.DeepCopy)
    ∧ (∀ (held : Option Status) (m : PortalMsg), m.Home = true →
        subscriberReact held (.recv (some m)) =
          (some m.status.DeepCopy, .cont)) := by
  refine ⟨?_, ?_, ?_, ?_⟩
  · intro held m hm
    simp [subscriberReact, hm]
  · intro held evs m hm
    exact subscriberRun_append_nonhome held evs m hm
  · intro held prim m hp hm
    simp [subscriberRun, subscriberReact, hp, hm]
  · intro held m hm
    simp [subscriberReact, hm]

/-- Witness for C4 at concrete messages: a primary update to status 7 followed
by a non-home message carrying status 9 leaves the cache at 7. -/
theorem C4_origin_filtering_witness :
    subscriberRun none
      [.recv (some { Home := true, status := ⟨7⟩ }),
       .recv (some { Home := false, status := ⟨9⟩ })] = some ⟨7⟩ :=
  C4_origin_filtering.2.2.1 none { Home := true, status := ⟨7⟩ }
    { Home := false, status := ⟨9⟩ } rfl rfl

/-- C10: a `nil` message received on the status subscription channel is
skipped without being dereferenced: the cached snapshot is unchanged and the
loop continues waiting (it neither crashes nor exits), so a trace beginning
with a `nil` receive computes the same cache as the trace without it. -/
theorem C10_nil_message_skipped :
    (∀ held : Option Status,
        subscriberReact held (.recv none) = (held, LoopCtl.cont))
    ∧ (∀ (held : Option Status) (rest : List SubEvent),
        subscriberRun held (.recv none :: rest) = subscriberRun held rest) := by
  constructor
  · intro held; rfl
  · intro held rest; rfl

/-! RenderLoop: the change-detection loop of `run` (lines 98-126). -/

/-- One tick of `run` at the fingerprint level (lines 101-121): the snapshot
fingerprint (`hash := structhash.Md5(copied, 1)`, a 16-byte digest modelled as
a byte list) is compared byte-exactly with the stored `last`
(`bytes.Compare(last, hash) != 0`); on a difference `last` is updated and the
rendering capability (`test8LED`) is invoked, otherwise nothing happens.
Returns the new `last` and whether a render was invoked. -/
def renderStep (last hash : List Nat) : List Nat × Bool :=
  if last = hash then (last, false) else (hash, true)

/-- The render loop over the fingerprints observed at successive ticks,
counting render invocations. -/
def renderRun (last : List Nat) (count : Nat) :
    List (List Nat) → List Nat × Nat
  | [] => (last, count)
  | h :: rest =>
    match renderStep last h with
    | (l2, true) => renderRun l2 (count + 1) rest
    | (l2, false) => renderRun l2 count rest

/-- Line 71: `last := []byte{}` — the initial stored fingerprint is the empty
byte slice (an MD5 digest is never empty). -/
def initialLast : List Nat := []

/-- C3: RenderLoop renders exactly once per distinct fingerprint transition
and never on a tick whose snapshot fingerprint equals the previously stored
one: a tick with an unchanged fingerprint changes nothing and invokes no
render, and the tick sequence [A, A, B, B, A] (with A, B distinct non-empty
digests) performs exactly 3 render invocations. -/
theorem C3_render_dedup :
    (∀ last hash : List Nat, last = hash →
        renderStep last hash = (last, false))
    ∧ (∀ A B : List Nat, A ≠ B → A ≠ initialLast →
        (renderRun initialLast 0 [A, A, B, B, A]).2 = 3) := by
  constructor
  · intro last hash h
    simp [renderStep, h]
  · intro A B hAB hA
    have h1 : initialLast ≠ A := fun h => hA h.symm
    have h2 : B ≠ A := fun h => hAB h.symm
    simp [renderRun, renderStep, h1, hAB, h2]

/-- Witness for C3 at concrete digests A = [0], B = [1]: 3 renders. -/
theorem C3_render_dedup_witness :
    (renderRun initialLast 0 [[0], [0], [1], [1], [0]]).2 = 3 :=
  C3_render_dedup.2 [0] [1] (by decide) (by decide)

/-! ErrorSink: `sendErr` (lines 223-232). -/

/-- Line 229: `case <-time.After(20 * time.Millisecond)` — the handoff bound
of `sendErr`, in milliseconds. -/
def sendErrTimeoutMillis : Nat := 20

/-- What one call to `sendErr` does with the error. -/
inductive SinkOutcome where
  | delivered
  | fallbackLogged
  | droppedNilChannel
deriving Repr, DecidableEq

/-- Function `sendErr` (lines 223-232): a `nil` channel returns immediately dropping
the error; otherwise a `select` races the channel send against a 20 ms timer —
`consumerReady` models whether a consumer accepts the handoff within that
bound; when it does not, the error is printed to the local diagnostic stream.
The function always returns within the bound: it is total and every branch is
immediate. -/
def sendErr (channelPresent consumerReady : Bool) : SinkOutcome :=
  if channelPresent = false then .droppedNilChannel
  else if consumerReady then .delivered else .fallbackLogged

/-- C7: with an error channel present, `sendErr` either hands the error to a
consumer or, when no consumer accepts it within the bound, writes it to the
local fallback stream — one of the two always happens, so the call never
blocks past the bound — and the bound is 20 ms, on the order of tens of
milliseconds. -/
theorem C7_error_sink_never_blocks :
    (∀ consumerReady : Bool,
        sendErr true consumerReady = SinkOutcome.delivered
        ∨ sendErr true consumerReady = SinkOutcome.fallbackLogged)
    ∧ (sendErr true true = SinkOutcome.delivered)
    ∧ (sendErr true false = SinkOutcome.fallbackLogged)
    ∧ (sendErrTimeoutMillis = 20 ∧ 10 ≤ sendErrTimeoutMillis
        ∧ sendErrTimeoutMillis < 100) := by
  refine ⟨?_, rfl, rfl, rfl, by decide, by decide⟩
  intro consumerReady
  cases consumerReady
  · exact Or.inr rfl
  · exact Or.inl rfl

/-! `RunLoop` startup (lines 143-158). -/

/-- Modelled from the spec: the startup capabilities of `RunLoop` —
`GetSeqRunner` ("sequencing engine", an opaque capability) and `GetUniverses`
("device topology": devices plus known logical channels) are repository code
not under `src/`; each either succeeds or returns an error. -/
structure RunLoopEnv where
  getSeqRunner : Except GoError Unit
  getUniverses : Except GoError (Unit × List Nat)
  streamEnv : StreamEnv

/-- The observable outcome of `RunLoop`: whether `errorC` was closed (the
`defer close(errorC)` at line 145 runs on every exit), the error it returned,
and whether the streaming loop was entered. -/
structure RunLoopOutcome where
  errorCClosed : Bool
  exitErr : Option GoError
  enteredStreaming : Bool
deriving Repr, DecidableEq

/-- Function `RunLoop` (lines 143-221): `defer close(errorC); sr, err := GetSeqRunner();
if err != nil { return err }; devices, universes, err := GetUniverses(); if err
!= nil { return err }` and then the streaming loop, run here for `ticks`
iterations before `quitC` ends it.  Returns the outcome together with the
final streaming state. -/
def RunLoop (env : RunLoopEnv) (ticks : Nat) : RunLoopOutcome × TickState :=
  match env.getSeqRunner with
  | .error e =>
    ({ errorCClosed := true, exitErr := some e, enteredStreaming := false },
     initialTickState)
  | .ok _ =>
    match env.getUniverses with
    | .error e =>
      ({ errorCClosed := true, exitErr := some e, enteredStreaming := false },
       initialTickState)
    | .ok _ =>
      ({ errorCClosed := true, exitErr := none,
         enteredStreaming := decide (0 < ticks) },
       (runTicks env.streamEnv ticks initialTickState).2)

/-- C8: when `GetSeqRunner` or `GetUniverses` fails at FrameStreamer startup,
`RunLoop` closes its error channel and exits with that error without ever
entering the streaming phase — no frame is advanced or sent (the streaming
state stays initial, with zero `Send` calls). -/
theorem C8_startup_error_exits :
    (∀ (env : RunLoopEnv) (ticks : Nat) (e : GoError),
        env.getSeqRunner = .error e →
        RunLoop env ticks =
          ({ errorCClosed := true, exitErr := some e,
             enteredStreaming := false }, initialTickState))
    ∧ (∀ (env : RunLoopEnv) (ticks : Nat) (u : Unit) (e : GoError),
        env.getSeqRunner = .ok u → env.getUniverses = .error e →
        RunLoop env ticks =
          ({ errorCClosed := true, exitErr := some e,
             enteredStreaming := false }, initialTickState))
    ∧ initialTickState.sendCount = 0 ∧ initialTickState.sent = [] := by
  refine ⟨?_, ?_, rfl, rfl⟩
  · intro env ticks e he
    simp [RunLoop, he]
  · intro env ticks u e hsr hu
    simp [RunLoop, hsr, hu]

/-- Witness for C8 at a concrete environment whose `GetSeqRunner` fails. -/
theorem C8_startup_error_exits_witness :
    RunLoop
      { getSeqRunner := .error (errNew ("sequencer unavailable"))
        getUniverses := .ok ((), [])
        streamEnv := pacingScenarioEnv } 4 =
      ({ errorCClosed := true, exitErr := some (errNew ("sequencer unavailable"))
         , enteredStreaming := false }, initialTickState) :=
  C8_startup_error_exits.1
    { getSeqRunner := .error (errNew ("sequencer unavailable"))
      getUniverses := .ok ((), [])
      streamEnv := pacingScenarioEnv } 4 (errNew ("sequencer unavailable")) rfl

/-! Shutdown and channel closing (C9).

`RunLoop` runs `defer close(errorC)` (line 145), so `errorC` is closed
whenever `RunLoop` exits — on `quitC`, or immediately at startup when
`GetSeqRunner`/`GetUniverses` fails.  But the independent `run` loop
(lines 98-125) also sends on the same `errorC` (line 116) whenever a render
fails, and `run` keeps looping until `quitC` fires.  In Go, a send on a closed
channel panics, even inside a `select` with a timeout case.  The interleaved
transition system below embeds exactly these effects. -/

/-- An atomic observable step of the interleaved system. -/
inductive SysEvent where
  /-- Step: `RunLoop` exits via a startup error; its `defer` closes `errorC`. -/
  | runLoopStartupError
  /-- The shutdown signal `quitC` is closed. -/
  | quitRaised
  /-- Step: `RunLoop` wakes on `quitC` and returns; its `defer` closes `errorC`. -/
  | runLoopSeesQuit
  /-- Step: `run` finishes a tick whose render failed and executes
  `select { case errorC <- err: ... }` (lines 115-119). -/
  | runRenderErrorSend
deriving Repr, DecidableEq

/-- The shared-channel state: whether quit was raised, whether `errorC` has
been closed, and whether a send was attempted on the already-closed `errorC`
(a Go runtime panic). -/
structure SysState where
  quit : Bool
  errorCClosed : Bool
  sendOnClosed : Bool
deriving Repr, DecidableEq

/-- Effect of one event on the shared state. -/
def sysStep (s : SysState) (e : SysEvent) : SysState :=
  if s.sendOnClosed then s
  else
    match e with
    | .runLoopStartupError => { s with errorCClosed := true }
    | .quitRaised => { s with quit := true }
    | .runLoopSeesQuit =>
      if s.quit then { s with errorCClosed := true } else s
    | .runRenderErrorSend =>
      if s.errorCClosed then { s with sendOnClosed := true } else s

/-- A run of the interleaved system from the initial state. -/
def sysRun (events : List SysEvent) : SysState :=
  events.foldl sysStep { quit := false, errorCClosed := false,
                         sendOnClosed := false }

/-- C9 (code bug): the code admits executions in which a send is attempted on
the closed error channel, contradicting the claim.  Two concrete reachable
interleavings: (1) `RunLoop` exits at startup because `GetSeqRunner` fails and
its `defer` closes `errorC`, then `run` — which only exits on `quitC` — hits a
render failure and sends on the closed `errorC`; (2) after `quitC` is raised,
`RunLoop` wakes first and closes `errorC` while `run` is mid-tick, and `run`
then sends its render error on the closed `errorC`.  Both end with
`sendOnClosed = true`, a Go panic. -/
theorem C9_send_on_closed_channel :
    (sysRun [.runLoopStartupError, .runRenderErrorSend]).sendOnClosed = true
    ∧ (sysRun [.quitRaised, .runLoopSeesQuit, .runRenderErrorSend]).sendOnClosed
        = true := by
  exact ⟨rfl, rfl⟩

end Mawt
